import Mathlib

/-!
# Superstore Analytics dashboard — verification of the filtering/aggregation
# pipeline and the notification dispatcher

Shallow embedding of `newapp2.py`. A transaction record (one dataframe row)
becomes a structure; the loaded dataframe becomes a `List Row`; pandas
boolean-mask selection becomes `List.filter`; `groupby(...)[m].sum()` becomes
a map over the sorted distinct keys (pandas sorts group keys by default),
pairing each key with the sum of the measure over the rows of that group;
`Series.nlargest(n)` becomes a stable descending sort by value followed by
`take n`; `Series.mean()` becomes an `Option`-valued mean (`none` models the
NaN that pandas returns on an empty series); the Twilio / SMTP send calls
become oracle functions returning `Except`, and each per-row `try/except`
becomes a `match` on the oracle's result.

Dates are embedded as integers (datetime ordinals: the filter only compares
them); monetary / numeric measures as rationals.
-/

namespace Superstore

/-- One transaction record (a row of the dataset).  Field names follow the
CSV columns used by `newapp2.py`.  Optional-column *presence* (`SalesRep`,
`Mobile`, `email`) is a property of the dataset's schema, not of a row, and
is modelled separately by the `Columns` schema below; a `Row` always carries
the field values. -/
structure Row where
  Region : String
  Category : String
  Segment : String
  OrderDate : ℤ
  Sales : ℚ
  Profit : ℚ
  Discount : ℚ
  Quantity : ℚ
  SubCategory : String
  State : String
  City : String
  ProductName : String
  SalesRep : String
  Bonus : ℚ
  Mobile : String
  email : String
deriving DecidableEq, Repr

/-- The dataset's schema: which of the optional columns are present.
`newapp2.py` probes `df.columns` for `"SalesRep"` (line 225) and
`"Mobile"` (line 289). -/
structure Columns where
  hasSalesRep : Bool
  hasMobile : Bool
  hasEmail : Bool
deriving DecidableEq, Repr

/-- Lines 41–47 of `newapp2.py`:

```
filtered_df = df[
    (df["Region"].isin(region)) &
    (df["Category"].isin(category)) &
    (df["Segment"].isin(segment)) &
    (df["Order Date"] >= start_date) &
    (df["Order Date"] <= end_date)
]
```

Boolean-mask selection is `List.filter`; `.isin(sel)` is list membership. -/
def filtered_df (df : List Row) (region category segment : List String)
    (start_date end_date : ℤ) : List Row :=
  df.filter (fun r =>
    region.contains r.Region &&
    category.contains r.Category &&
    segment.contains r.Segment &&
    decide (start_date ≤ r.OrderDate) &&
    decide (r.OrderDate ≤ end_date))

/-- **C1.** For every filter selection, the filtered view is a sublist (hence
a subset) of the loaded dataset, and a record of the dataset is in the
filtered view iff its Region, Category and Segment are members of the
respective selections and its Order Date lies in the inclusive interval
`[start_date, end_date]`. -/
theorem filtered_df_subset_and_mem_iff (df : List Row)
    (region category segment : List String) (start_date end_date : ℤ) :
    (filtered_df df region category segment start_date end_date).Sublist df ∧
    ∀ r : Row, r ∈ filtered_df df region category segment start_date end_date ↔
      (r ∈ df ∧ r.Region ∈ region ∧ r.Category ∈ category ∧ r.Segment ∈ segment ∧
        start_date ≤ r.OrderDate ∧ r.OrderDate ≤ end_date) := by
  refine ⟨List.filter_sublist df, fun r => ?_⟩
  simp only [filtered_df, List.mem_filter, Bool.and_eq_true, decide_eq_true_eq,
    List.elem_iff, and_assoc]

/-- **C5.** Emptying any one categorical selection yields an empty filtered
view, regardless of the other selections and the date range: membership in
the empty list is always false, so the conjunctive mask rejects every row. -/
theorem filtered_df_empty_selection (df : List Row)
    (region category segment : List String) (start_date end_date : ℤ)
    (h : region = [] ∨ category = [] ∨ segment = []) :
    filtered_df df region category segment start_date end_date = [] := by
  rw [List.eq_nil_iff_forall_not_mem]
  intro r hr
  have hmem := ((filtered_df_subset_and_mem_iff df region category segment
    start_date end_date).2 r).1 hr
  rcases h with h | h | h <;> rw [h] at hmem <;> simp at hmem

/-- `view.groupby(key)[measure].sum()` (e.g. line 87
`filtered_df.groupby("Product Name")["Sales"].sum()`, line 105
`filtered_df.groupby("Category")["Sales"].sum()`): one output entry per
distinct key value, in ascending key order (pandas groups with
`sort=True` by default), paired with the sum of the measure over the rows
of that group. -/
def groupbySum {κ : Type} [DecidableEq κ] [LinearOrder κ]
    (view : List Row) (key : Row → κ) (measure : Row → ℚ) : List (κ × ℚ) :=
  (((view.map key).dedup).mergeSort (fun a b => decide (a ≤ b))).map
    (fun k => (k, ((view.filter (fun r => decide (key r = k))).map measure).sum))

/-- `Series.nlargest(n)` (lines 87, 130, 143, 244, 257, 270): the `n`
largest entries by value, in descending value order; ties keep the earlier
entry first (pandas `keep="first"`), which a stable descending sort
followed by `take n` reproduces. -/
def nlargest {κ : Type} (n : ℕ) (s : List (κ × ℚ)) : List (κ × ℚ) :=
  (s.mergeSort (fun a b => decide (b.2 ≤ a.2))).take n

/-- Line 87: `filtered_df.groupby("Product Name")["Sales"].sum().nlargest(top_n)`
and its twins on other keys/measures: group, sum, keep the top N. -/
def topNBySum {κ : Type} [DecidableEq κ] [LinearOrder κ]
    (n : ℕ) (view : List Row) (key : Row → κ) (measure : Row → ℚ) :
    List (κ × ℚ) :=
  nlargest n (groupbySum view key measure)

/-- The number of distinct groups of `view` under `key`. -/
def distinctKeyCount {κ : Type} [DecidableEq κ] (view : List Row)
    (key : Row → κ) : ℕ :=
  ((view.map key).dedup).length

theorem length_groupbySum {κ : Type} [DecidableEq κ] [LinearOrder κ]
    (view : List Row) (key : Row → κ) (measure : Row → ℚ) :
    (groupbySum view key measure).length = distinctKeyCount view key := by
  simp [groupbySum, distinctKeyCount, List.length_mergeSort]

/-- **C2.** For every view, grouping key, measure and `N`: the top-N
aggregation returns exactly `min N (number of distinct groups)` entries,
sorted by descending aggregated measure value, and when `N` is at least the
number of distinct groups it returns all the groups (a permutation of the
full group-by result). -/
theorem topNBySum_length_sorted {κ : Type} [DecidableEq κ] [LinearOrder κ]
    (n : ℕ) (view : List Row) (key : Row → κ) (measure : Row → ℚ) :
    (topNBySum n view key measure).length = min n (distinctKeyCount view key) ∧
    (topNBySum n view key measure).Sorted (fun a b : κ × ℚ => b.2 ≤ a.2) ∧
    (distinctKeyCount view key ≤ n →
      (topNBySum n view key measure).Perm (groupbySum view key measure)) := by
  refine ⟨?_, ?_, ?_⟩
  · simp [topNBySum, nlargest, List.length_take, List.length_mergeSort,
      length_groupbySum]
  · have hsorted := @List.sorted_mergeSort (κ × ℚ)
      (fun a b : κ × ℚ => decide (b.2 ≤ a.2))
      (fun a b c hab hbc => by
        simp only [decide_eq_true_eq] at *; exact le_trans hbc hab)
      (fun a b => by
        simp only [Bool.or_eq_true, decide_eq_true_eq]; exact le_total b.2 a.2)
      (groupbySum view key measure)
    have htake := List.Pairwise.sublist
      (List.take_sublist n ((groupbySum view key measure).mergeSort
        (fun a b => decide (b.2 ≤ a.2)))) hsorted
    simpa [topNBySum, nlargest, List.Sorted] using htake
  · intro hle
    have hlen : ((groupbySum view key measure).mergeSort
        (fun a b => decide (b.2 ≤ a.2))).length ≤ n := by
      rw [List.length_mergeSort, length_groupbySum]; exact hle
    rw [topNBySum, nlargest, List.take_of_length_le hlen]
    exact List.mergeSort_perm _ _

/-- A concrete dataset row used by witnesses and counterexamples.  Values
are arbitrary but plausible for the Superstore CSV. -/
def rowA : Row :=
  { Region := "West", Category := "Furniture", Segment := "Consumer",
    OrderDate := 100, Sales := 250, Profit := 60, Discount := 1/10,
    Quantity := 2, SubCategory := "Chairs", State := "CA",
    City := "Los Angeles", ProductName := "Chair Deluxe",
    SalesRep := "Ali", Bonus := 500, Mobile := "+15550001",
    email := "a@example.com" }

/-- A second concrete dataset row. -/
def rowB : Row :=
  { Region := "East", Category := "Technology", Segment := "Corporate",
    OrderDate := 120, Sales := 400, Profit := -20, Discount := 2/10,
    Quantity := 1, SubCategory := "Phones", State := "NY",
    City := "New York", ProductName := "Phone X",
    SalesRep := "Sara", Bonus := 300, Mobile := "+15550002",
    email := "b@example.com" }

/-- Witness for C5 at a concrete input: with the region selection emptied,
the filter of a two-row dataset returns no rows. -/
theorem filtered_df_empty_selection_witness :
    filtered_df [rowA, rowB] [] ["Furniture", "Technology"]
      ["Consumer", "Corporate"] 0 200 = [] :=
  filtered_df_empty_selection [rowA, rowB] [] ["Furniture", "Technology"]
    ["Consumer", "Corporate"] 0 200 (Or.inl rfl)

/-- Witness for C2 at a concrete input: two rows with distinct categories,
`top_n = 5` (the slider's minimum); both groups come back, descending by
summed sales, and since 5 exceeds the 2 distinct groups the result is the
whole group-by table. -/
theorem topNBySum_length_sorted_witness :
    (topNBySum 5 [rowA, rowB] Row.Category Row.Sales).length =
      min 5 (distinctKeyCount [rowA, rowB] Row.Category) ∧
    (topNBySum 5 [rowA, rowB] Row.Category Row.Sales).Sorted
      (fun a b : String × ℚ => b.2 ≤ a.2) ∧
    (topNBySum 5 [rowA, rowB] Row.Category Row.Sales).Perm
      (groupbySum [rowA, rowB] Row.Category Row.Sales) := by
  obtain ⟨h1, h2, h3⟩ :=
    topNBySum_length_sorted 5 [rowA, rowB] Row.Category Row.Sales
  exact ⟨h1, h2, h3 (by decide)⟩

/-- Line 66: `filtered_df['Sales'].sum()` — the Total Sales KPI. -/
def total_sales_kpi (view : List Row) : ℚ := (view.map Row.Sales).sum

/-- Line 68: `filtered_df['Profit'].sum()` — the Total Profit KPI. -/
def total_profit_kpi (view : List Row) : ℚ := (view.map Row.Profit).sum

/-- Spec-side definition (for the refinement claim C7): the naive
elementwise sum of a column over a list of records, by direct recursion. -/
def naiveColumnSum (measure : Row → ℚ) : List Row → ℚ
  | [] => 0
  | r :: rest => measure r + naiveColumnSum measure rest

theorem naiveColumnSum_eq_map_sum (measure : Row → ℚ) (l : List Row) :
    naiveColumnSum measure l = (l.map measure).sum := by
  induction l with
  | nil => rfl
  | cons r rest ih => simp [naiveColumnSum, ih]

/-- **C7.** Each sum-based aggregate of the code — the Total Sales and
Total Profit KPIs, and every per-group sum produced by `groupbySum` —
equals the naive elementwise sum of the measure column restricted to the
view (respectively to the rows of the group). -/
theorem sum_aggregates_eq_naive {κ : Type} [DecidableEq κ] [LinearOrder κ]
    (view : List Row) (key : Row → κ) (measure : Row → ℚ) :
    total_sales_kpi view = naiveColumnSum Row.Sales view ∧
    total_profit_kpi view = naiveColumnSum Row.Profit view ∧
    ∀ p ∈ groupbySum view key measure,
      p.2 = naiveColumnSum measure
        (view.filter (fun r => decide (key r = p.1))) := by
  refine ⟨(naiveColumnSum_eq_map_sum Row.Sales view).symm,
          (naiveColumnSum_eq_map_sum Row.Profit view).symm, ?_⟩
  intro p hp
  simp only [groupbySum, List.mem_map] at hp
  obtain ⟨k, _, rfl⟩ := hp
  exact (naiveColumnSum_eq_map_sum measure _).symm

/-- Witness for C7 at a concrete input: the "Furniture" group of a two-row
view sums to rowA's sales, which the naive recursive sum reproduces. -/
theorem sum_aggregates_eq_naive_witness :
    ((("Furniture" : String), (250 : ℚ)) : String × ℚ).2 =
      naiveColumnSum Row.Sales
        (([rowA, rowB]).filter (fun r => decide (Row.Category r = "Furniture"))) :=
  (sum_aggregates_eq_naive [rowA, rowB] Row.Category Row.Sales).2.2
    ("Furniture", (250 : ℚ)) (by
      simp only [groupbySum, List.mem_map, List.mem_mergeSort]
      exact ⟨"Furniture", by decide, by
        norm_num [rowA, rowB, List.filter_cons, List.filter_nil]
        rw [if_neg (by decide)]
        norm_num⟩)

/-- `Series.mean()`: pandas returns NaN on an empty series (no exception is
raised, no division is performed) and `sum / count` otherwise.  `none`
models the NaN. -/
def seriesMean (l : List ℚ) : Option ℚ :=
  if l.length = 0 then none else some (l.sum / l.length)

/-- Line 70: the f-string `f"{filtered_df['Discount'].mean():.2%}"`.
Python's `%` format renders the NaN of an empty mean as the literal text
`"nan%"`; for a number it renders the value times 100 followed by `"%"`
(the two-decimal rounding of the format spec is abstracted here — no claim
depends on it, only on the NaN branch). -/
def formatPercent : Option ℚ → String
  | none => "nan%"
  | some q => toString (q * 100) ++ "%"

/-- Line 70: `st.metric("Average Discount", f"{filtered_df['Discount'].mean():.2%}")`
— the string the Average Discount KPI displays.  The code formats whatever
`mean()` returns; there is no emptiness guard between the mean and the
format. -/
def average_discount_kpi (view : List Row) : String :=
  formatPercent (seriesMean (view.map Row.Discount))

/-- **C3, counterexample.** On the empty filtered view the Average Discount
KPI displays exactly the rendering of the undefined (NaN) mean — the text
`"nan%"` — and not an explicit "no data" report: the claim's "reports an
explicit no-data state rather than producing an undefined numeric result"
fails at this input.  (`formatPercent none` *is* the undefined-numeric
rendering, and the KPI output coincides with it.) -/
theorem average_discount_kpi_empty_shows_nan :
    average_discount_kpi [] = formatPercent none ∧ formatPercent none = "nan%" :=
  ⟨rfl, rfl⟩

/-- **C3, amended.** On an empty filtered view the mean-based Average
Discount KPI raises no division error — the embedded `Series.mean` returns
the undefined marker `none` (pandas' NaN) without dividing — but the code
does not report an explicit "no data" state: it formats the undefined
value, displaying `"nan%"`. -/
theorem average_discount_kpi_empty (view : List Row) (h : view = []) :
    seriesMean (view.map Row.Discount) = none ∧
    average_discount_kpi view = "nan%" := by
  subst h; exact ⟨rfl, rfl⟩

/-- Witness for the amended C3 at the concrete empty view. -/
theorem average_discount_kpi_empty_witness :
    seriesMean (([] : List Row).map Row.Discount) = none ∧
    average_discount_kpi [] = "nan%" :=
  average_discount_kpi_empty [] rfl

/-- A per-row outcome surfaced by the dispatch loops: `st.success(...)` /
`st.error(...)` on lines 321/323 and 354/356. -/
inductive Report
  | success (dest : String)
  | failure (dest : String) (err : String)
deriving DecidableEq, Repr

/-- The value held by the `message` variable of the Send Notifications page:
initially the user-supplied template string (line 297), but line 316
(`message = client.messages.create(...)`) rebinds it to the Twilio response
object, identified here by its numeric handle. -/
inductive MsgVal
  | tmpl (s : String)
  | resp (sid : ℕ)
deriving DecidableEq, Repr

/-- The error Python raises when `.format` is called on a Twilio response
object instead of a string. -/
def attrErrMsg : String :=
  "AttributeError: MessageInstance object has no attribute format"

/-- `message.format(bonus=bonus)` on a plain template string: substitute the
bonus value for the `{bonus}` placeholder. -/
def substBonus (s : String) (b : ℚ) : String :=
  s.replace "{bonus}" (toString b)

/-- Line 315, `message.format(bonus=bonus)`: succeeds on a template string,
raises `AttributeError` when `message` has been rebound to a gateway
response object. -/
def fmtMsg : MsgVal → ℚ → Except String String
  | .tmpl s, b => .ok (substBonus s b)
  | .resp _, _ => .error attrErrMsg

/-- Lines 311–323, the SMS dispatch loop, with the Twilio call
`client.messages.create(...)` as an oracle `send` (`.ok sid` = the gateway
returns a response object, `.error` = it raises).  Per row, inside the
`try`: read `Bonus` and `Mobile`, format the current `message` value, call
the gateway, rebind `message` to the response on success; the `except`
turns any raise into a per-row failure report and the loop continues.
Returns the reports in row order and the list of Mobile numbers for which
the gateway call was actually made. -/
def smsRun (send : Row → Except String ℕ) (msg : MsgVal) :
    List Row → List Report × List String
  | [] => ([], [])
  | row :: rest =>
    match fmtMsg msg row.Bonus with
    | .error e =>
        let out := smsRun send msg rest
        (.failure row.Mobile e :: out.1, out.2)
    | .ok _pm =>
        match send row with
        | .ok sid =>
            let out := smsRun send (.resp sid) rest
            (.success row.Mobile :: out.1, row.Mobile :: out.2)
        | .error e =>
            let out := smsRun send msg rest
            (.failure row.Mobile e :: out.1, row.Mobile :: out.2)

/-- Once `message` holds a gateway response object, every remaining row
fails at the formatting step with `AttributeError` and no further gateway
call is made. -/
theorem smsRun_resp (send : Row → Except String ℕ) (sid : ℕ) (l : List Row) :
    smsRun send (.resp sid) l =
      (l.map (fun r => .failure r.Mobile attrErrMsg), []) := by
  induction l with
  | nil => rfl
  | cons r rest ih => simp [smsRun, fmtMsg, ih]

/-- **C10.** In the SMS dispatch loop, as soon as the first row's send
succeeds, the `message` variable is rebound to the gateway's response, so
for the second row (and every later row) the formatting step no longer
operates on the user-supplied template: it raises `AttributeError`, every
remaining row is reported as a failure, and only the first row's gateway
call is ever made. -/
theorem sms_message_rebound_after_success (send : Row → Except String ℕ)
    (t : String) (r1 r2 : Row) (rest : List Row) (sid : ℕ)
    (h : send r1 = Except.ok sid) :
    smsRun send (.tmpl t) (r1 :: r2 :: rest) =
      (.success r1.Mobile :: .failure r2.Mobile attrErrMsg ::
        rest.map (fun r => .failure r.Mobile attrErrMsg),
       [r1.Mobile]) := by
  simp [smsRun, fmtMsg, h, smsRun_resp]

/-- The default template of the `st.text_area` on line 297. -/
def defaultMessage : String :=
  "Dear Customer, your bonus for this month is SAR {bonus}. Thank you for your continued support!"

/-- Witness for C10 at a concrete input: a gateway that accepts every
message, a two-row view; only the first row is sent, the second fails with
`AttributeError`. -/
theorem sms_message_rebound_after_success_witness :
    smsRun (fun _ => Except.ok 3) (.tmpl defaultMessage) [rowB, rowA] =
      ([.success rowB.Mobile, .failure rowA.Mobile attrErrMsg],
       [rowB.Mobile]) :=
  sms_message_rebound_after_success (fun _ => Except.ok 3) defaultMessage
    rowB rowA [] 3 rfl

/-- **C4.** (Evaluation at the failing input.)  Over a two-row filtered
view and a gateway that would accept *both* messages, the SMS dispatch loop
sends only the first row: the second row's gateway call is never attempted
— the loop fails at the template-formatting step because `message` was
rebound to the first response — yet the loop still completes with one
success and one failure report.  This contradicts the claim that the loop
"attempts a send for every row in order" and that the caught exception is
one "raised by a row's send". -/
theorem sms_loop_skips_send_after_first_success :
    smsRun (fun _ => Except.ok 7) (.tmpl defaultMessage) [rowA, rowB] =
      ([.success rowA.Mobile, .failure rowB.Mobile attrErrMsg],
       [rowA.Mobile]) := rfl

/-- The error Python raises for `row["email"]` when the dataset has no
`email` column. -/
def keyErrMsg : String := "KeyError: email"

/-- Running state of the email dispatch loop (lines 337–356).  `emailVar`
is the loop-local `email` variable: `none` while it has never been bound
(Python name not yet assigned).  `processed` counts rows whose `try` block
began; `aborted` records an uncaught exception escaping the loop. -/
structure EmailState where
  emailVar : Option String
  reports : List Report
  processed : ℕ
  aborted : Bool
deriving DecidableEq, Repr

/-- The state before the email loop starts. -/
def emailInit : EmailState :=
  { emailVar := none, reports := [], processed := 0, aborted := false }

/-- Lines 337–356, the email dispatch loop, with the SMTP
connect/STARTTLS/login/send sequence as an oracle `send`.  Per row, inside
the `try`: read `Bonus`, read `row["email"]` (raises `KeyError` when the
dataset lacks the column), format the template (the email loop never
rebinds `message`, so formatting always succeeds), build the MIME message
and send.  The `except` handler formats `f"Failed to send email to {email}: ..."`:
if the `email` variable has never been bound — which is the case on the
first row whenever the column is absent — that reference itself raises
`NameError`, which nothing catches, so the loop aborts; otherwise the
failure is reported per row and the loop continues. -/
def emailRunAux (send : Row → Except String Unit) (hasEmailCol : Bool) :
    EmailState → List Row → EmailState
  | st, [] => st
  | st, row :: rest =>
    let st1 : EmailState := { st with processed := st.processed + 1 }
    if hasEmailCol then
      let _pm := substBonus defaultMessage row.Bonus
      match send row with
      | .ok _ =>
          emailRunAux send hasEmailCol
            { st1 with emailVar := some row.email,
                       reports := st1.reports ++ [.success row.email] } rest
      | .error e =>
          emailRunAux send hasEmailCol
            { st1 with emailVar := some row.email,
                       reports := st1.reports ++ [.failure row.email e] } rest
    else
      match st1.emailVar with
      | some prev =>
          emailRunAux send hasEmailCol
            { st1 with reports := st1.reports ++ [.failure prev keyErrMsg] } rest
      | none => { st1 with aborted := true }

/-- Which channel the radio button on line 293 selected. -/
inductive Channel
  | sms
  | em
deriving DecidableEq, Repr

/-- What the Send Notifications page produced. -/
inductive NotifOut
  | blockedError (err : String)
  | smsOutcome (reports : List Report) (sendCalls : List String)
  | emailOutcome (final : EmailState)
deriving DecidableEq, Repr

/-- The blocking error text of line 290. -/
def notifBlockedMsg : String :=
  "The dataset must contain Mobile and email columns to send notifications."

/-- Lines 289–356, the Send Notifications page.  The gate on line 289 is
`if "Mobile" not in df.columns` — it probes *only* the Mobile column, even
though its error text names both contact columns.  Past the gate, the
selected channel's loop runs over the filtered view.  (The empty-credential
guards of lines 307/334 are orthogonal to every claim and elided:
credentials are taken as provided.) -/
def send_notifications_page (cols : Columns) (channel : Channel)
    (tmpl : String) (smsSend : Row → Except String ℕ)
    (emailSend : Row → Except String Unit) (view : List Row) : NotifOut :=
  if !cols.hasMobile then .blockedError notifBlockedMsg
  else
    match channel with
    | .sms =>
        let out := smsRun smsSend (.tmpl tmpl) view
        .smsOutcome out.1 out.2
    | .em => .emailOutcome (emailRunAux emailSend cols.hasEmail emailInit view)

/-- **C6.** (Evaluation at the failing input.)  With a schema that has the
`Mobile` column but lacks the `email` column, selecting the Email channel
is *not* blocked: the only gate the code has (line 289) checks `Mobile`
alone, so the per-row loop is entered — the first row's `try` block begins
(`processed = 1`) and the missing-column `KeyError` escalates to an
uncaught `NameError` in the handler — no blocking error is ever shown.  By
contrast (second conjunct) the claim does hold for the channel the gate
actually covers: with `Mobile` absent the page is disabled before any
per-row work. -/
theorem email_channel_not_gated_on_email_column :
    send_notifications_page ⟨true, true, false⟩ .em defaultMessage
      (fun _ => Except.ok 7) (fun _ => Except.ok ()) [rowA] =
      .emailOutcome { emailVar := none, reports := [], processed := 1,
                      aborted := true } ∧
    send_notifications_page ⟨true, false, true⟩ .sms defaultMessage
      (fun _ => Except.ok 7) (fun _ => Except.ok ()) [rowA] =
      .blockedError notifBlockedMsg :=
  ⟨rfl, rfl⟩

/-- Line 230: `sales_rep_df = filtered_df[filtered_df["SalesRep"].isin(sales_reps)]`
— the secondary sales-rep filter applied on top of the globally filtered
view. -/
def sales_rep_df (view : List Row) (sales_reps : List String) : List Row :=
  view.filter (fun r => sales_reps.contains r.SalesRep)

/-- What the Sales Rep Analysis page produced. -/
inductive SalesRepOut
  | report (totalSales totalProfit : ℚ) (avgDiscount : String)
      (topSalesReps topProfitReps topBonusReps : List (String × ℚ))
  | missingWarning
deriving Repr

/-- Lines 220–281, the Sales Rep Analysis page: when the `SalesRep` column
exists (line 225), apply the secondary filter and compute the page's KPIs
and top-N tables from the doubly filtered view; otherwise (line 281)
only the warning is shown and nothing is computed. -/
def sales_rep_page (hasSalesRepCol : Bool) (view : List Row)
    (sales_reps : List String) (top_n : ℕ) : SalesRepOut :=
  if hasSalesRepCol then
    let srdf := sales_rep_df view sales_reps
    .report (total_sales_kpi srdf) (total_profit_kpi srdf)
      (formatPercent (seriesMean (srdf.map Row.Discount)))
      (topNBySum top_n srdf Row.SalesRep Row.Sales)
      (topNBySum top_n srdf Row.SalesRep Row.Profit)
      (topNBySum top_n srdf Row.SalesRep Row.Bonus)
  else .missingWarning

/-- **C8.** When the `SalesRep` column is present, the Sales Rep page's
view is the globally filtered view further restricted to the rows whose
`SalesRep` is in the sales-rep selection — a sublist of the global view,
with membership exactly characterised by that extra predicate; when the
column is absent, the page degrades to the warning and computes no
sales-rep aggregates. -/
theorem sales_rep_view_and_guard (view : List Row)
    (sales_reps : List String) (top_n : ℕ) :
    (sales_rep_df view sales_reps).Sublist view ∧
    (∀ r : Row, r ∈ sales_rep_df view sales_reps ↔
      (r ∈ view ∧ r.SalesRep ∈ sales_reps)) ∧
    sales_rep_page false view sales_reps top_n = SalesRepOut.missingWarning := by
  refine ⟨List.filter_sublist view, fun r => ?_, rfl⟩
  simp [sales_rep_df, List.mem_filter, List.elem_iff]

/-- Line 74: `filtered_df.groupby("Order Date")[["Sales", "Profit"]].sum()`
— the daily sales/profit trend table, one entry per distinct order date in
ascending date order. -/
def trend_data (view : List Row) : List (ℤ × ℚ × ℚ) :=
  (((view.map Row.OrderDate).dedup).mergeSort (fun a b => decide (a ≤ b))).map
    (fun d =>
      (d, ((view.filter (fun r => decide (r.OrderDate = d))).map Row.Sales).sum,
          ((view.filter (fun r => decide (r.OrderDate = d))).map Row.Profit).sum))

/-- The process state: the dataset loaded once by `load_data` (line 21) and
cached.  For the frame claim, every dataframe operation the script performs
is embedded as a state-passing operation `AppState → result × AppState`:
pandas boolean-mask selection, `groupby(...).sum()`, `nlargest` and
`mean()` all return fresh objects, and `newapp2.py` never assigns to `df`
nor passes `inplace=True`, so each embedded operation returns the dataset
component it received. -/
structure AppState where
  df : List Row
deriving Repr

/-- Lines 41–47 as a state-passing operation: compute the filtered view,
hand the dataset back untouched. -/
def filterOp (st : AppState) (region category segment : List String)
    (start_date end_date : ℤ) : List Row × AppState :=
  (filtered_df st.df region category segment start_date end_date, st)

/-- Line 230 as a state-passing operation: the secondary sales-rep view on
top of the filtered view. -/
def salesRepOp (st : AppState) (region category segment : List String)
    (start_date end_date : ℤ) (sales_reps : List String) :
    List Row × AppState :=
  let out := filterOp st region category segment start_date end_date
  (sales_rep_df out.1 sales_reps, out.2)

/-- Lines 74 / 87 / 105 / 130 / … as a state-passing operation: the trend
table and a top-N group-by table computed from the filtered view. -/
def aggregateOp (st : AppState) (region category segment : List String)
    (start_date end_date : ℤ) (key : Row → String) (measure : Row → ℚ)
    (top_n : ℕ) : (List (ℤ × ℚ × ℚ) × List (String × ℚ)) × AppState :=
  let out := filterOp st region category segment start_date end_date
  ((trend_data out.1, topNBySum top_n out.1 key measure), out.2)

/-- **C9.** No operation mutates the loaded dataset: computing the filtered
view, the secondary sales-rep view, or an aggregation view leaves the
dataset state exactly as loaded — every derived view is a fresh value. -/
theorem dataset_never_mutated (st : AppState)
    (region category segment : List String) (start_date end_date : ℤ)
    (sales_reps : List String) (key : Row → String) (measure : Row → ℚ)
    (top_n : ℕ) :
    (filterOp st region category segment start_date end_date).2 = st ∧
    (salesRepOp st region category segment start_date end_date sales_reps).2 = st ∧
    (aggregateOp st region category segment start_date end_date key measure
      top_n).2 = st :=
  ⟨rfl, rfl, rfl⟩

end Superstore
